import Mathlib

/-!
# Service catalog: configuration validation, device configuration, remote registration

A shallow embedding of

* `config.go` (`Config.Validate`, `ValidatorConf.Validate`),
* `catalog/constants.go` (`SupportedBackends`, `SupportedProtocols`),
* `cmd/device-gateway/registration.go` (`configureDevices`, `registerInRemoteCatalog`),
* `integration-test/mqtt_test.go` (`MockedService`),

A Go `error` is an `Option String`: `none` is `nil`, `some msg` is an error with that message.
Library calls whose code is outside the repository (`url.Parse`, `authz.Conf.Validate`,
`obtainer.Setup`) are parameters of the functions that call them.
-/

namespace ServiceCatalog

/-! ## catalog/constants.go -/

namespace catalog

def CatalogBackendMemory : String := "memory"

def CatalogBackendLevelDB : String := "leveldb"

/-- The map `SupportedBackends`; a lookup of an absent key yields `false`, as in Go. -/
def SupportedBackends (k : String) : Bool :=
  if k = CatalogBackendMemory then true
  else if k = CatalogBackendLevelDB then true
  else false

/-- The map `SupportedProtocols`; a lookup of an absent key yields `false`, as in Go. -/
def SupportedProtocols (k : String) : Bool :=
  if k = "HTTP" then true
  else if k = "MQTT" then true
  else if k = "AMQP" then true
  else false

end catalog

/-! ## config.go -/

/-- The Go type `error`. -/
abbrev GoError := Option String

/-- Ticket validator configuration; `A` is the type `authz.Conf` of the authorization library,
and `Authz = none` is the nil pointer. -/
structure ValidatorConf (A : Type) where
  Enabled : Bool
  Provider : String
  ProviderURL : String
  ServiceID : String
  BasicEnabled : Bool
  Authz : Option A

/-- The storage section; the field `Type` of the source is `Type_` here. -/
structure StorageConfig where
  Type_ : String
  DSN : String

/-- The service configuration; `M` is the type `catalog.MQTTConf`. -/
structure Config (A M : Type) where
  Description : String
  DnssdEnabled : Bool
  BindAddr : String
  BindPort : Int
  Storage : StorageConfig
  Auth : ValidatorConf A
  MQTTConf : M

/-- The method `ValidatorConf.Validate`. `urlParse s` is the error of `url.Parse(s)` and
`authzValidate a` the error of `a.Validate()`. -/
def ValidatorConf.Validate {A : Type} (urlParse : String → GoError) (authzValidate : A → GoError)
    (c : ValidatorConf A) : GoError :=
  if c.Provider = "" then
    some "Ticket Validator: Auth provider name (provider) is not specified."
  else if c.ProviderURL = "" then
    some "Ticket Validator: Auth provider URL (providerURL) is not specified."
  else
    match urlParse c.ProviderURL with
    | some e => some ("Ticket Validator: Auth provider URL (providerURL) is invalid: " ++ e)
    | none =>
      if c.ServiceID = "" then
        some "Ticket Validator: Auth Service ID (serviceID) is not specified."
      else
        match c.Authz with
        | some a =>
          match authzValidate a with
          | some e => some e
          | none => none
        | none => none

/-- The method `Config.Validate`. The variable `err` of the source is threaded through its
assignments in order (`err1` .. `err5`); `_, err = url.Parse(c.Storage.DSN)` assigns `err`
unconditionally, so `err3` does not depend on `err2`. -/
def Config.Validate {A M : Type} (urlParse : String → GoError) (authzValidate : A → GoError)
    (c : Config A M) : GoError :=
  let err0 : GoError := none
  let err1 : GoError :=
    if c.BindAddr = "" ∨ c.BindPort = 0 then some "Empty host or port" else err0
  let _err2 : GoError :=
    if ¬ (catalog.SupportedBackends c.Storage.Type_ = true) then some "Unsupported storage backend"
    else err1
  let err3 : GoError := urlParse c.Storage.DSN
  let err4 : GoError :=
    if err3 ≠ none then some "storage DSN should be a valid URL" else err3
  if c.Auth.Enabled = true then
    let err5 : GoError := c.Auth.Validate urlParse authzValidate
    if err5 ≠ none then err5 else err5
  else
    err4

/-! ## Values of type `map[string]interface{}` -/

/-- A value of Go type `interface{}` as it occurs in descriptors: a string, or any other value,
which the code stores and returns without inspecting it (kept as its encoded text). -/
inductive AnyValue where
  | str (s : String)
  | other (encoded : String)
  deriving DecidableEq, Repr

/-- A Go `map[string]interface{}`, as the list of its entries. -/
abbrev GoMap := List (String × AnyValue)

/-- The assignment `m[k] = v`. -/
def GoMap.set : GoMap → String → AnyValue → GoMap
  | [], k, v => [(k, v)]
  | (k', v') :: m, k, v => if k' = k then (k, v) :: m else (k', v') :: GoMap.set m k v

/-! ## cmd/device-gateway/registration.go -/

namespace DeviceGateway

/-- Constants whose declarations are absent from the sources: the protocol type tags of the
gateway configuration and the type tags of the catalog's devices and resources. -/
structure Constants where
  ProtocolTypeREST : String
  ProtocolTypeMQTT : String
  ApiDeviceType : String
  ApiResourceType : String
  deriving DecidableEq, Repr

/-- The value a `RestProtocol` section is used for. -/
structure RestProtocol where
  Location : String
  deriving DecidableEq, Repr

/-- The values an `MqttProtocol` section is used for. -/
structure MqttProtocol where
  URL : String
  Prefix : String
  deriving DecidableEq, Repr

/-- A value of the map `config.Protocols` (Go type `interface{}`). -/
inductive ProtocolConf where
  | rest (r : RestProtocol)
  | mqtt (m : MqttProtocol)
  | other
  deriving DecidableEq, Repr

/-- A protocol a configured resource supports. -/
structure SupportedProtocol where
  Type_ : String
  Methods : List String
  ContentTypes : List String
  deriving DecidableEq, Repr

/-- A configured resource. -/
structure Resource where
  Name : String
  Meta : GoMap
  Representation : GoMap
  Protocols : List SupportedProtocol
  deriving DecidableEq, Repr

/-- A configured device. -/
structure Device where
  Name : String
  Description : String
  Meta : GoMap
  Ttl : Int
  Resources : List Resource
  deriving DecidableEq, Repr

/-- The auth section of a configured remote catalog. -/
structure ObtainerConf where
  Provider : String
  ProviderURL : String
  Username : String
  Password : String
  ServiceID : String
  deriving DecidableEq, Repr

/-- A configured remote catalog; `Auth = none` is the nil pointer. -/
structure Catalog where
  Discover : Bool
  Endpoint : String
  Auth : Option ObtainerConf
  deriving DecidableEq, Repr

/-- The gateway configuration, with the fields the registration code reads. -/
structure Config where
  Id : String
  PublicEndpoint : String
  Catalog : List Catalog
  Protocols : List (String × ProtocolConf)
  Devices : List Device
  deriving DecidableEq, Repr

namespace catalog

/-- The type `catalog.Protocol` of the resource catalog. -/
structure Protocol where
  Type_ : String
  Endpoint : GoMap
  Methods : List String
  ContentTypes : List String
  deriving DecidableEq, Repr

/-- The type `catalog.Resource`, with the fields `configureDevices` assigns. -/
structure Resource where
  Id : String
  Type_ : String
  Name : String
  Meta : GoMap
  Protocols : List Protocol
  Representation : GoMap
  deriving DecidableEq, Repr

/-- The type `catalog.Device`, with the fields `configureDevices` assigns. -/
structure Device where
  Id : String
  Type_ : String
  Name : String
  Meta : GoMap
  Description : String
  Ttl : Int
  Resources : List Resource
  deriving DecidableEq, Repr

end catalog

/-- The type assertion `config.Protocols[ProtocolTypeREST].(RestProtocol)` with its second result
discarded: the zero value when the key is absent or holds another type. -/
def restConfigOf (k : Constants) (config : Config) : RestProtocol :=
  match config.Protocols.lookup k.ProtocolTypeREST with
  | some (ProtocolConf.rest r) => r
  | _ => { Location := "" }

/-- The type assertion `mqtt, ok := config.Protocols[ProtocolTypeMQTT].(MqttProtocol)`;
`none` is `ok = false`. -/
def mqttConfigOf (k : Constants) (config : Config) : Option MqttProtocol :=
  match config.Protocols.lookup k.ProtocolTypeMQTT with
  | some (ProtocolConf.mqtt m) => some m
  | _ => none

/-- The body of the innermost loop of `configureDevices`: the catalog protocol built for one
configured protocol of a resource of a device. -/
def configureProtocol (k : Constants) (config : Config) (restConfig : RestProtocol)
    (device : Device) (resource : Resource) (proto : SupportedProtocol) : catalog.Protocol :=
  let endpoint : GoMap := []
  let endpoint : GoMap :=
    if proto.Type_ = k.ProtocolTypeREST then
      endpoint.set "url" (AnyValue.str
        (config.PublicEndpoint ++ restConfig.Location ++ "/" ++ device.Name ++ "/" ++ resource.Name))
    else if proto.Type_ = k.ProtocolTypeMQTT then
      match mqttConfigOf k config with
      | some mqtt =>
        (endpoint.set "url" (AnyValue.str mqtt.URL)).set "topic"
          (AnyValue.str (mqtt.Prefix ++ "/" ++ device.Name ++ "/" ++ resource.Name))
      | none => endpoint
    else endpoint
  { Type_ := proto.Type_, Methods := proto.Methods, ContentTypes := proto.ContentTypes,
    Endpoint := endpoint }

/-- The loop over `resource.Protocols`, appending to `res.Protocols`. -/
def configureProtocols (k : Constants) (config : Config) (restConfig : RestProtocol)
    (device : Device) (resource : Resource) : List catalog.Protocol :=
  resource.Protocols.foldl
    (fun acc proto => acc ++ [configureProtocol k config restConfig device resource proto]) []

/-- The body of the loop over `device.Resources`; `rId` is `r.Id`. -/
def configureResource (k : Constants) (config : Config) (restConfig : RestProtocol)
    (device : Device) (rId : String) (resource : Resource) : catalog.Resource :=
  { Type_ := k.ApiResourceType, Name := resource.Name, Meta := resource.Meta,
    Representation := resource.Representation,
    Id := rId ++ "/" ++ resource.Name,
    Protocols := configureProtocols k config restConfig device resource }

/-- The body of the loop over `config.Devices`. -/
def configureDevice (k : Constants) (config : Config) (restConfig : RestProtocol)
    (device : Device) : catalog.Device :=
  let rId := config.Id ++ "/" ++ device.Name
  { Type_ := k.ApiDeviceType, Ttl := device.Ttl, Name := device.Name,
    Description := device.Description, Meta := device.Meta, Id := rId,
    Resources := device.Resources.foldl
      (fun acc resource => acc ++ [configureResource k config restConfig device rId resource]) [] }

/-- The function `configureDevices`: the loop over `config.Devices`, appending to `devices`. -/
def configureDevices (k : Constants) (config : Config) : List catalog.Device :=
  let restConfig := restConfigOf k config
  config.Devices.foldl (fun devices device => devices ++ [configureDevice k config restConfig device]) []

/-- The client `obtainer.NewClient(o, username, password, serviceID)`; `O` is the type of a
ticket obtainer. -/
structure ObtainerClient (O : Type) where
  obtainer : O
  username : String
  password : String
  serviceID : String

/-- A started goroutine `go catalog.RegisterDeviceWithKeepalive(endpoint, discover, d, sigCh,
&wg, client)`, recorded by its arguments; channels are numbered in the order `make` creates
them, and `client = none` is the nil client. -/
structure Agent (O : Type) where
  endpoint : String
  discover : Bool
  device : catalog.Device
  sigCh : Nat
  client : Option (ObtainerClient O)

/-- The state of `registerInRemoteCatalog`: the slice `regChannels`, the counter of the wait
group `wg` (the sum of its `Add` calls), the agents started so far, the number of channels
made so far, and the lines written to the logger and to standard output. -/
structure RegState (O : Type) where
  regChannels : List Nat
  wg : Nat
  agents : List (Agent O)
  made : Nat
  logged : List String
  printed : List String

/-- The body of the inner loop of `registerInRemoteCatalog` for catalog `cat` and device `d`.
`setup p u` is the result of `obtainer.Setup(p, u)`. On a setup error the error is printed and
the iteration ends with `continue`, before the agent is started, the channel appended and the
wait group incremented. -/
def registerPair {O : Type} (setup : String → String → Except String O) (cat : Catalog)
    (st : RegState O) (d : catalog.Device) : RegState O :=
  let sigCh := st.made
  let st := { st with made := st.made + 1 }
  match cat.Auth with
  | none =>
    let agent : Agent O :=
      { endpoint := cat.Endpoint, discover := cat.Discover, device := d, sigCh := sigCh,
        client := none }
    let st := { st with agents := st.agents ++ [agent] }
    let st := { st with regChannels := st.regChannels ++ [sigCh] }
    { st with wg := st.wg + 1 }
  | some auth =>
    match setup auth.Provider auth.ProviderURL with
    | Except.error e => { st with printed := st.printed ++ [e] }
    | Except.ok o =>
      let agent : Agent O :=
        { endpoint := cat.Endpoint, discover := cat.Discover, device := d, sigCh := sigCh,
          client := some { obtainer := o, username := auth.Username, password := auth.Password,
                           serviceID := auth.ServiceID } }
      let st := { st with agents := st.agents ++ [agent] }
      let st := { st with regChannels := st.regChannels ++ [sigCh] }
      { st with wg := st.wg + 1 }

/-- The function `registerInRemoteCatalog`. Its results `regChannels` and `&wg` are the fields
`regChannels` and `wg` of the final state, whose field `agents` lists the started goroutines. -/
def registerInRemoteCatalog {O : Type} (setup : String → String → Except String O)
    (devices : List catalog.Device) (config : Config) : RegState O :=
  let st : RegState O :=
    { regChannels := [], wg := 0, agents := [], made := 0, logged := [], printed := [] }
  if config.Catalog.length > 0 then
    let st := { st with logged := st.logged ++
      ["Will now register in the configured remote catalogs"] }
    config.Catalog.foldl
      (fun st cat => devices.foldl (fun st d => registerPair setup cat st d) st) st
  else
    st

/-- Whether the inner loop body completes for catalog `cat`: no auth is configured, or the
obtainer setup for its provider succeeds. -/
def Catalog.setupSucceeds {O : Type} (setup : String → String → Except String O)
    (cat : Catalog) : Bool :=
  match cat.Auth with
  | none => true
  | some auth =>
    match setup auth.Provider auth.ProviderURL with
    | Except.error _ => false
    | Except.ok _ => true

end DeviceGateway

/-! ## integration-test/mqtt_test.go and the registry it exercises -/

namespace catalog

/-- The type `catalog.Spec`. -/
structure Spec where
  MediaType : String
  URL : String
  Schema : GoMap
  deriving DecidableEq, Repr

/-- The type `catalog.API`. -/
structure API where
  ID : String
  Title : String
  Description : String
  Protocol : String
  URL : String
  Spec : Spec
  Meta : GoMap
  deriving DecidableEq, Repr

/-- The type `catalog.Service`: the fields the test sets, and the three server-managed
timestamps of the data model (seconds). -/
structure Service where
  ID : String
  Type_ : String
  Description : String
  APIs : List API
  Doc : String
  Meta : GoMap
  TTL : Int
  CreatedAt : Int
  UpdatedAt : Int
  ExpiresAt : Int
  deriving DecidableEq, Repr

end catalog

/-- The function `MockedService` of the integration test; the timestamps it leaves unset are
zero. -/
def MockedService (id : String) : catalog.Service :=
  { ID := id,
    Type_ := "_test._tcp",
    Description := "Test Service " ++ id,
    APIs := [{
      ID := "api-id",
      Title := "API title",
      Description := "API description",
      Protocol := "HTTPS",
      URL := "http://localhost:8080",
      Spec := {
        MediaType := "application/vnd.oai.openapi+json;version=3.0",
        URL := "http://localhost:8080/swaggerSpec.json",
        Schema := [] },
      Meta := [] }],
    Doc := "https://docs.linksmart.eu/display/SC",
    Meta := [],
    TTL := 30,
    CreatedAt := 0, UpdatedAt := 0, ExpiresAt := 0 }

namespace catalog

/-- The error conditions of the registry. -/
inductive StoreError where
  | ValidationError (msg : String)
  | NotFoundError (id : String)
  deriving DecidableEq, Repr

/-- The lifecycle events of a registration. -/
inductive LifecycleEvent where
  | Created (s : Service)
  | Updated (s : Service)
  deriving DecidableEq, Repr

/-- Modelled from the spec: the validation rule of `Upsert` (the registry's code is absent from
the sources): `ttl > 0` and every API's `protocol` is in the supported set. -/
def validate (s : Service) : Except StoreError Unit :=
  if ¬ (0 < s.TTL) then Except.error (StoreError.ValidationError "ttl must be positive")
  else if s.APIs.all (fun api => SupportedProtocols api.Protocol) then Except.ok ()
  else Except.error (StoreError.ValidationError "unsupported API protocol")

/-- Modelled from the spec: the registry store (its code is absent from the sources),
the stored descriptors, at most one per `id`. -/
abbrev Store := List Service

/-- Modelled from the spec: `Get(id) -> descriptor` of the registry store, failing with a
not-found condition when `id` is absent. -/
def Store.Get (st : Store) (id : String) : Except StoreError Service :=
  match st.find? (fun s => s.ID = id) with
  | some s => Except.ok s
  | none => Except.error (StoreError.NotFoundError id)

/-- Modelled from the spec: `Upsert(descriptor) -> (stored, created)` of the registry store at
time `now`. It validates first and on failure returns the validation error without a new
state; on success it computes `created` from the prior existence of `id`, sets or keeps
`createdAt`, refreshes `updatedAt` and `expiresAt = now + ttl`, and stores the full descriptor
in place of any prior one. -/
def Store.Upsert (now : Int) (st : Store) (d : Service) :
    Except StoreError (Store × Service × Bool) :=
  match validate d with
  | Except.error e => Except.error e
  | Except.ok () =>
    match st.find? (fun s => s.ID = d.ID) with
    | some old =>
      let stored := { d with CreatedAt := old.CreatedAt, UpdatedAt := now, ExpiresAt := now + d.TTL }
      Except.ok (stored :: st.filter (fun s => s.ID ≠ d.ID), stored, false)
    | none =>
      let stored := { d with CreatedAt := now, UpdatedAt := now, ExpiresAt := now + d.TTL }
      Except.ok (stored :: st.filter (fun s => s.ID ≠ d.ID), stored, true)

/-- Modelled from the spec: identity resolution of the registration protocol handler (its code
is absent from the sources): a non-empty payload `id` is authoritative, otherwise the
`id` of the transport's addressing is used. -/
def resolveId (addrId : String) (payload : Service) : String :=
  if payload.ID ≠ "" then payload.ID else addrId

/-- Modelled from the spec: registration by the protocol handler (its code is absent from the
sources): resolve the identity, inject it into the descriptor, call `Store.Upsert`,
and emit `Created` if `created` is true, else `Updated`. -/
def register (now : Int) (st : Store) (addrId : String) (payload : Service) :
    Except StoreError (Store × LifecycleEvent) :=
  let d := { payload with ID := resolveId addrId payload }
  match Store.Upsert now st d with
  | Except.error e => Except.error e
  | Except.ok (st', stored, created) =>
    Except.ok (st', if created then LifecycleEvent.Created stored else LifecycleEvent.Updated stored)

/-- A registration request as the handler receives it: the time of arrival, the `id` of the
transport's addressing and the decoded payload. -/
structure Request where
  now : Int
  addrId : String
  payload : Service
  deriving DecidableEq, Repr

/-- Modelled from the spec: the registry after the handler has processed one registration
request (its code is absent from the sources); a rejected request leaves the state as it
was. -/
def registerNext (st : Store) (r : Request) : Store :=
  match register r.now st r.addrId r.payload with
  | Except.error _ => st
  | Except.ok (st', _) => st'

/-- Modelled from the spec: the registry after the handler has processed a sequence of
registration requests in order (its code is absent from the sources). -/
def registerAll (st : Store) (rs : List Request) : Store :=
  rs.foldl registerNext st

end catalog

/-! ## Concrete inputs and auxiliary definitions -/

/-- A ticket validator section with the auth switch off and every other field empty. -/
def authDisabled : ValidatorConf Unit :=
  { Enabled := false, Provider := "", ProviderURL := "", ServiceID := "", BasicEnabled := false,
    Authz := none }

/-- A configuration with host and port set and the storage backend `redis`. -/
def configRedisBackend : Config Unit Unit :=
  { Description := "Service Catalog", DnssdEnabled := false, BindAddr := "0.0.0.0",
    BindPort := 8082, Storage := { Type_ := "redis", DSN := "" }, Auth := authDisabled,
    MQTTConf := () }

/-- A configuration with an empty host, port zero and the storage backend `memory`. -/
def configEmptyHost : Config Unit Unit :=
  { Description := "Service Catalog", DnssdEnabled := false, BindAddr := "",
    BindPort := 0, Storage := { Type_ := "memory", DSN := "" }, Auth := authDisabled,
    MQTTConf := () }

/-- A gateway configuration with two devices, the first with two resources. -/
def sampleGatewayConfig : DeviceGateway.Config :=
  { Id := "gw", PublicEndpoint := "http://gw:8080", Catalog := [],
    Protocols := [("REST", DeviceGateway.ProtocolConf.rest { Location := "/rest" })],
    Devices := [
      { Name := "d1", Description := "first", Meta := [], Ttl := 30,
        Resources := [
          { Name := "r1", Meta := [], Representation := [],
            Protocols := [{ Type_ := "REST", Methods := ["GET"], ContentTypes := [] }] },
          { Name := "r2", Meta := [], Representation := [], Protocols := [] }] },
      { Name := "d2", Description := "second", Meta := [], Ttl := 60, Resources := [] }] }

/-- The constants as the gateway declares them. -/
def sampleConstants : DeviceGateway.Constants :=
  { ProtocolTypeREST := "REST", ProtocolTypeMQTT := "MQTT", ApiDeviceType := "Device",
    ApiResourceType := "Resource" }

/-- The arguments that identify the (catalog, device) pair an agent was started for. -/
def DeviceGateway.Agent.pair {O : Type} (a : DeviceGateway.Agent O) :
    String × Bool × DeviceGateway.catalog.Device :=
  (a.endpoint, a.discover, a.device)

/-- The (catalog, device) pairs of one catalog for which the loop body completes. -/
def DeviceGateway.startedPairs {O : Type} (setup : String → String → Except String O)
    (devices : List DeviceGateway.catalog.Device) (cat : DeviceGateway.Catalog) :
    List (String × Bool × DeviceGateway.catalog.Device) :=
  if cat.setupSucceeds setup = true then devices.map (fun d => (cat.Endpoint, cat.Discover, d))
  else []

/-- The join invariant of the registration loop: the channels are those of the started agents,
in order, and the wait group counts the started agents. -/
def DeviceGateway.RegState.joined {O : Type} (st : DeviceGateway.RegState O) : Prop :=
  st.regChannels = st.agents.map (fun a => a.sigCh) ∧ st.wg = st.agents.length

/-- An obtainer setup that fails for every provider. -/
def failingSetup : String → String → Except String Unit :=
  fun provider _ => Except.error ("unknown provider " ++ provider)

/-- A device as `configureDevices` builds it. -/
def sampleDevice : DeviceGateway.catalog.Device :=
  { Id := "gw/d1", Type_ := "Device", Name := "d1", Meta := [], Description := "first",
    Ttl := 30, Resources := [] }

/-- A gateway configuration with one remote catalog that has auth configured. -/
def configAuthCatalog : DeviceGateway.Config :=
  { Id := "gw", PublicEndpoint := "http://gw:8080",
    Catalog := [{ Discover := false, Endpoint := "http://catalog:8081",
                  Auth := some { Provider := "cas", ProviderURL := "https://cas:8443",
                                 Username := "gw", Password := "secret",
                                 ServiceID := "catalog" } }],
    Protocols := [], Devices := [] }

/-- A gateway configuration with two remote catalogs, the first without auth. -/
def configTwoCatalogs : DeviceGateway.Config :=
  { Id := "gw", PublicEndpoint := "http://gw:8080",
    Catalog := [{ Discover := false, Endpoint := "http://catalog-a:8081", Auth := none },
                { Discover := true, Endpoint := "", 
                  Auth := some { Provider := "cas", ProviderURL := "https://cas:8443",
                                 Username := "gw", Password := "secret",
                                 ServiceID := "catalog" } }],
    Protocols := [], Devices := [] }

/-- An obtainer setup that succeeds for every provider. -/
def succeedingSetup : String → String → Except String Unit :=
  fun _ _ => Except.ok ()

/-- The descriptor `s` with the protocol of each of its APIs replaced by `proto`. -/
def withProtocol (proto : String) (s : catalog.Service) : catalog.Service :=
  { s with APIs := s.APIs.map (fun api => { api with Protocol := proto }) }

/-! ## Theorems: config.go -/

/-- What `Config.Validate` computes: with auth enabled the result of the auth section's
validation, otherwise the DSN error if `url.Parse` fails on the DSN and nil if it succeeds. -/
theorem Config.Validate_eq {A M : Type} (urlParse : String → GoError)
    (authzValidate : A → GoError) (c : Config A M) :
    c.Validate urlParse authzValidate =
      if c.Auth.Enabled = true then c.Auth.Validate urlParse authzValidate
      else if urlParse c.Storage.DSN = none then none
      else some "storage DSN should be a valid URL" := by
  unfold Config.Validate
  by_cases hE : c.Auth.Enabled = true
  · simp [hE]
  · by_cases hP : urlParse c.Storage.DSN = none
    · simp [hE, hP]
    · simp [hE, hP]

/-- C2 (evaluation at the failing input): the storage type `redis` is not in
`SupportedBackends`, yet whenever `url.Parse` accepts the (empty) DSN, `Config.Validate`
returns nil for `configRedisBackend`. -/
theorem Config_Validate_redis_backend_nil (urlParse : String → GoError)
    (authzValidate : Unit → GoError) (hParse : urlParse "" = none) :
    catalog.SupportedBackends configRedisBackend.Storage.Type_ = false ∧
      configRedisBackend.Validate urlParse authzValidate = none := by
  refine ⟨by decide, ?_⟩
  rw [Config.Validate_eq]
  simp [configRedisBackend, authDisabled, hParse]

/-- C2 at a `url.Parse` that accepts every string. -/
theorem Config_Validate_redis_backend_nil_witness :
    (fun (_ : String) => (none : GoError)) "" = none ∧
      (catalog.SupportedBackends configRedisBackend.Storage.Type_ = false ∧
        configRedisBackend.Validate (fun _ => none) (fun _ => none) = none) :=
  ⟨rfl, Config_Validate_redis_backend_nil (fun _ => none) (fun _ => none) rfl⟩

/-- C7 (evaluation at the failing input): `configEmptyHost` has an empty `BindAddr` and a zero
`BindPort`, yet whenever `url.Parse` accepts the (empty) DSN, `Config.Validate` returns nil. -/
theorem Config_Validate_empty_host_nil (urlParse : String → GoError)
    (authzValidate : Unit → GoError) (hParse : urlParse "" = none) :
    configEmptyHost.BindAddr = "" ∧ configEmptyHost.BindPort = 0 ∧
      configEmptyHost.Validate urlParse authzValidate = none := by
  refine ⟨rfl, rfl, ?_⟩
  rw [Config.Validate_eq]
  simp [configEmptyHost, authDisabled, hParse]

/-- C7 at a `url.Parse` that accepts every string. -/
theorem Config_Validate_empty_host_nil_witness :
    (fun (_ : String) => (none : GoError)) "" = none ∧
      (configEmptyHost.BindAddr = "" ∧ configEmptyHost.BindPort = 0 ∧
        configEmptyHost.Validate (fun _ => none) (fun _ => none) = none) :=
  ⟨rfl, Config_Validate_empty_host_nil (fun _ => none) (fun _ => none) rfl⟩

/-- C8: `ValidatorConf.Validate` returns nil if and only if `Provider`, `ProviderURL` and
`ServiceID` are all non-empty, `ProviderURL` parses as a URL, and `Authz` is either absent or
itself validates; otherwise it returns an error. -/
theorem ValidatorConf_Validate_nil_iff {A : Type} (urlParse : String → GoError)
    (authzValidate : A → GoError) (c : ValidatorConf A) :
    c.Validate urlParse authzValidate = none ↔
      (c.Provider ≠ "" ∧ c.ProviderURL ≠ "" ∧ c.ServiceID ≠ "" ∧
        urlParse c.ProviderURL = none ∧
        (c.Authz = none ∨ ∃ a, c.Authz = some a ∧ authzValidate a = none)) := by
  unfold ValidatorConf.Validate
  by_cases h1 : c.Provider = ""
  · simp [h1]
  by_cases h2 : c.ProviderURL = ""
  · simp [h1, h2]
  cases h3 : urlParse c.ProviderURL with
  | some e => simp [h1, h2]
  | none =>
    by_cases h4 : c.ServiceID = ""
    · simp [h1, h2, h4]
    cases h5 : c.Authz with
    | none => simp [h1, h2, h4]
    | some a =>
      cases h6 : authzValidate a with
      | none => simp [h1, h2, h4, h6]
      | some e => simp [h1, h2, h4, h6]

/-! ## Theorems: configureDevices -/

/-- A loop that appends one element per iteration builds the image of the list. -/
theorem foldl_append_singleton {α β : Type} (f : α → β) (xs : List α) (acc : List β) :
    xs.foldl (fun acc x => acc ++ [f x]) acc = acc ++ xs.map f := by
  induction xs generalizing acc with
  | nil => simp
  | cons x xs ih => simp [ih]

theorem DeviceGateway.configureDevices_eq_map (k : DeviceGateway.Constants)
    (config : DeviceGateway.Config) :
    DeviceGateway.configureDevices k config =
      config.Devices.map
        (DeviceGateway.configureDevice k config (DeviceGateway.restConfigOf k config)) := by
  simp [DeviceGateway.configureDevices, foldl_append_singleton]

theorem DeviceGateway.configureDevice_Resources (k : DeviceGateway.Constants)
    (config : DeviceGateway.Config) (restConfig : DeviceGateway.RestProtocol)
    (device : DeviceGateway.Device) :
    (DeviceGateway.configureDevice k config restConfig device).Resources =
      device.Resources.map
        (DeviceGateway.configureResource k config restConfig device
          (config.Id ++ "/" ++ device.Name)) := by
  simp [DeviceGateway.configureDevice, foldl_append_singleton]

/-- Appending to a fixed prefix is injective. -/
theorem string_append_right_injective (p : String) :
    Function.Injective (fun s : String => p ++ s) := by
  intro a b h
  have h' : (p ++ a).data = (p ++ b).data := congrArg String.data h
  rw [String.data_append, String.data_append] at h'
  exact String.ext (List.append_cancel_left h')

/-- C5: `configureDevices` returns exactly `len(config.Devices)` devices in the configured
order; the i-th carries the `Name`, `Ttl`, `Description` and `Meta` of `config.Devices[i]`, has
`Id = config.Id + "/" + Name`, and has exactly the configured resources in order, the j-th with
the configured `Name`, `Meta` and `Representation` and with `Id` the device `Id + "/" + Name`. -/
theorem configureDevices_devices_and_resources (k : DeviceGateway.Constants)
    (config : DeviceGateway.Config) :
    (DeviceGateway.configureDevices k config).length = config.Devices.length ∧
    List.Forall₂
      (fun (device : DeviceGateway.Device) (r : DeviceGateway.catalog.Device) =>
        r.Name = device.Name ∧ r.Ttl = device.Ttl ∧ r.Description = device.Description ∧
        r.Meta = device.Meta ∧ r.Id = config.Id ++ "/" ++ r.Name ∧
        r.Resources.length = device.Resources.length ∧
        List.Forall₂
          (fun (resource : DeviceGateway.Resource) (res : DeviceGateway.catalog.Resource) =>
            res.Name = resource.Name ∧ res.Meta = resource.Meta ∧
            res.Representation = resource.Representation ∧
            res.Id = r.Id ++ "/" ++ res.Name)
          device.Resources r.Resources)
      config.Devices (DeviceGateway.configureDevices k config) := by
  rw [DeviceGateway.configureDevices_eq_map]
  refine ⟨by simp, ?_⟩
  rw [List.forall₂_map_right_iff, List.forall₂_same]
  intro device _
  rw [DeviceGateway.configureDevice_Resources]
  refine ⟨rfl, rfl, rfl, rfl, rfl, by simp, ?_⟩
  rw [List.forall₂_map_right_iff, List.forall₂_same]
  intro resource _
  exact ⟨rfl, rfl, rfl, rfl⟩

/-- C9: the devices returned by `configureDevices` have pairwise distinct ids whenever the
configured device names are pairwise distinct, and within each returned device the resource
ids are pairwise distinct whenever that device's configured resource names are pairwise
distinct. -/
theorem configureDevices_ids_distinct (k : DeviceGateway.Constants)
    (config : DeviceGateway.Config) :
    ((config.Devices.map (fun d => d.Name)).Nodup →
      ((DeviceGateway.configureDevices k config).map (fun r => r.Id)).Nodup) ∧
    List.Forall₂
      (fun (device : DeviceGateway.Device) (r : DeviceGateway.catalog.Device) =>
        (device.Resources.map (fun x => x.Name)).Nodup →
          (r.Resources.map (fun x => x.Id)).Nodup)
      config.Devices (DeviceGateway.configureDevices k config) := by
  rw [DeviceGateway.configureDevices_eq_map]
  constructor
  · intro h
    have hmap : (config.Devices.map
          (DeviceGateway.configureDevice k config (DeviceGateway.restConfigOf k config))).map
          (fun r => r.Id) =
        (config.Devices.map (fun d => d.Name)).map (fun s => config.Id ++ "/" ++ s) := by
      simp [List.map_map, Function.comp_def, DeviceGateway.configureDevice]
    rw [hmap]
    exact h.map (string_append_right_injective (config.Id ++ "/"))
  · rw [List.forall₂_map_right_iff, List.forall₂_same]
    intro device _ h
    rw [DeviceGateway.configureDevice_Resources]
    have hmap : (device.Resources.map
          (DeviceGateway.configureResource k config (DeviceGateway.restConfigOf k config) device
            (config.Id ++ "/" ++ device.Name))).map (fun x => x.Id) =
        (device.Resources.map (fun x => x.Name)).map
          (fun s => config.Id ++ "/" ++ device.Name ++ "/" ++ s) := by
      simp [List.map_map, Function.comp_def, DeviceGateway.configureResource]
    rw [hmap]
    exact h.map (string_append_right_injective (config.Id ++ "/" ++ device.Name ++ "/"))

/-- C9 at `sampleGatewayConfig`: its two device names are distinct, and so are the two ids
returned; the resource part holds for its devices as stated. -/
theorem configureDevices_ids_distinct_witness :
    (sampleGatewayConfig.Devices.map (fun d => d.Name)).Nodup ∧
      ((DeviceGateway.configureDevices sampleConstants sampleGatewayConfig).map
        (fun r => r.Id)).Nodup ∧
      List.Forall₂
        (fun (device : DeviceGateway.Device) (r : DeviceGateway.catalog.Device) =>
          (device.Resources.map (fun x => x.Name)).Nodup →
            (r.Resources.map (fun x => x.Id)).Nodup)
        sampleGatewayConfig.Devices
        (DeviceGateway.configureDevices sampleConstants sampleGatewayConfig) :=
  ⟨by decide, (configureDevices_ids_distinct sampleConstants sampleGatewayConfig).1 (by decide),
    (configureDevices_ids_distinct sampleConstants sampleGatewayConfig).2⟩

/-! ## Theorems: registerInRemoteCatalog -/

theorem foldl_preserves {σ α : Type} (P : σ → Prop) (f : σ → α → σ)
    (h : ∀ s x, P s → P (f s x)) (xs : List α) (s : σ) (hs : P s) : P (xs.foldl f s) := by
  induction xs generalizing s with
  | nil => exact hs
  | cons x xs ih => exact ih (f s x) (h s x hs)

theorem DeviceGateway.registerPair_joined {O : Type} (setup : String → String → Except String O)
    (cat : DeviceGateway.Catalog) (st : DeviceGateway.RegState O)
    (d : DeviceGateway.catalog.Device) (h : st.joined) :
    (DeviceGateway.registerPair setup cat st d).joined := by
  obtain ⟨h1, h2⟩ := h
  unfold DeviceGateway.registerPair
  cases hA : cat.Auth with
  | none => simp [DeviceGateway.RegState.joined, h1, h2]
  | some auth =>
    cases hS : setup auth.Provider auth.ProviderURL with
    | error e => simp [DeviceGateway.RegState.joined, hS, h1, h2]
    | ok o => simp [DeviceGateway.RegState.joined, hS, h1, h2]

theorem DeviceGateway.registerPair_pairs {O : Type} (setup : String → String → Except String O)
    (cat : DeviceGateway.Catalog) (st : DeviceGateway.RegState O)
    (d : DeviceGateway.catalog.Device) :
    (DeviceGateway.registerPair setup cat st d).agents.map DeviceGateway.Agent.pair =
      st.agents.map DeviceGateway.Agent.pair ++
        DeviceGateway.startedPairs setup [d] cat := by
  unfold DeviceGateway.registerPair DeviceGateway.startedPairs DeviceGateway.Catalog.setupSucceeds
  cases hA : cat.Auth with
  | none => simp [DeviceGateway.Agent.pair]
  | some auth =>
    cases hS : setup auth.Provider auth.ProviderURL with
    | error e => simp [hS]
    | ok o => simp [hS, DeviceGateway.Agent.pair]

theorem DeviceGateway.registerDevices_pairs {O : Type}
    (setup : String → String → Except String O) (cat : DeviceGateway.Catalog)
    (devices : List DeviceGateway.catalog.Device) (st : DeviceGateway.RegState O) :
    (devices.foldl (fun st d => DeviceGateway.registerPair setup cat st d) st).agents.map
        DeviceGateway.Agent.pair =
      st.agents.map DeviceGateway.Agent.pair ++ DeviceGateway.startedPairs setup devices cat := by
  induction devices generalizing st with
  | nil => simp [DeviceGateway.startedPairs]
  | cons d ds ih =>
    rw [List.foldl_cons, ih, DeviceGateway.registerPair_pairs]
    unfold DeviceGateway.startedPairs
    by_cases hok : cat.setupSucceeds setup = true
    · simp [hok]
    · simp [hok]

theorem DeviceGateway.registerCatalogs_pairs {O : Type}
    (setup : String → String → Except String O) (devices : List DeviceGateway.catalog.Device)
    (cats : List DeviceGateway.Catalog) (st : DeviceGateway.RegState O) :
    (cats.foldl (fun st cat =>
        devices.foldl (fun st d => DeviceGateway.registerPair setup cat st d) st) st).agents.map
        DeviceGateway.Agent.pair =
      st.agents.map DeviceGateway.Agent.pair ++
        cats.flatMap (DeviceGateway.startedPairs setup devices) := by
  induction cats generalizing st with
  | nil => simp
  | cons c cs ih =>
    rw [List.foldl_cons, ih, DeviceGateway.registerDevices_pairs]
    simp

theorem DeviceGateway.length_startedPairs {O : Type}
    (setup : String → String → Except String O) (devices : List DeviceGateway.catalog.Device)
    (cats : List DeviceGateway.Catalog) :
    (cats.flatMap (DeviceGateway.startedPairs setup devices)).length =
      (cats.filter (fun cat => cat.setupSucceeds setup)).length * devices.length := by
  induction cats with
  | nil => simp
  | cons c cs ih =>
    rw [List.flatMap_cons, List.length_append, ih]
    unfold DeviceGateway.startedPairs
    by_cases hok : c.setupSucceeds setup = true
    · simp [hok, Nat.add_mul, Nat.add_comm]
    · simp [hok]

theorem DeviceGateway.registerInRemoteCatalog_pairs {O : Type}
    (setup : String → String → Except String O) (devices : List DeviceGateway.catalog.Device)
    (config : DeviceGateway.Config) :
    (DeviceGateway.registerInRemoteCatalog setup devices config).agents.map
        DeviceGateway.Agent.pair =
      config.Catalog.flatMap (DeviceGateway.startedPairs setup devices) := by
  unfold DeviceGateway.registerInRemoteCatalog
  by_cases h : config.Catalog.length > 0
  · simp only [h, if_true]
    rw [DeviceGateway.registerCatalogs_pairs]
    simp
  · have hnil : config.Catalog = [] := by
      cases hc : config.Catalog with
      | nil => rfl
      | cons c cs => simp [hc] at h
    simp [hnil]

theorem DeviceGateway.registerInRemoteCatalog_joined {O : Type}
    (setup : String → String → Except String O) (devices : List DeviceGateway.catalog.Device)
    (config : DeviceGateway.Config) :
    (DeviceGateway.registerInRemoteCatalog setup devices config).joined := by
  unfold DeviceGateway.registerInRemoteCatalog
  by_cases h : config.Catalog.length > 0
  · simp only [h, if_true]
    apply foldl_preserves DeviceGateway.RegState.joined
    · intro s cat hs
      exact foldl_preserves DeviceGateway.RegState.joined _
        (fun s d hs => DeviceGateway.registerPair_joined setup cat s d hs) devices s hs
    · simp [DeviceGateway.RegState.joined]
  · simp [h, DeviceGateway.RegState.joined]

/-- C1 fails where the obtainer setup fails: with one catalog whose setup fails and one device,
no agent is started and no channel is returned, while `len(config.Catalog) * len(devices)`
is 1. -/
theorem registerInRemoteCatalog_setup_failure_no_channel :
    (DeviceGateway.registerInRemoteCatalog failingSetup [sampleDevice]
        configAuthCatalog).regChannels.length = 0 ∧
      (DeviceGateway.registerInRemoteCatalog failingSetup [sampleDevice]
        configAuthCatalog).agents.length = 0 ∧
      configAuthCatalog.Catalog.length * [sampleDevice].length = 1 := by
  decide

/-- C1 (amended): `registerInRemoteCatalog` starts exactly one agent and returns exactly one
channel for each (catalog, device) pair whose catalog has no auth or whose obtainer setup
succeeds, in loop order, and none for a pair whose setup fails; so agents and channels number
`len(devices)` per such catalog, which is `len(config.Catalog) * len(devices)` when no setup
fails. -/
theorem registerInRemoteCatalog_one_agent_per_started_pair {O : Type}
    (setup : String → String → Except String O) (devices : List DeviceGateway.catalog.Device)
    (config : DeviceGateway.Config) :
    (DeviceGateway.registerInRemoteCatalog setup devices config).agents.map
        DeviceGateway.Agent.pair =
      config.Catalog.flatMap (DeviceGateway.startedPairs setup devices) ∧
    (DeviceGateway.registerInRemoteCatalog setup devices config).agents.length =
      (config.Catalog.filter (fun cat => cat.setupSucceeds setup)).length * devices.length ∧
    (DeviceGateway.registerInRemoteCatalog setup devices config).regChannels.length =
      (config.Catalog.filter (fun cat => cat.setupSucceeds setup)).length * devices.length ∧
    ((∀ cat ∈ config.Catalog, cat.setupSucceeds setup = true) →
      (DeviceGateway.registerInRemoteCatalog setup devices config).regChannels.length =
        config.Catalog.length * devices.length) := by
  have hp := DeviceGateway.registerInRemoteCatalog_pairs setup devices config
  have hj := DeviceGateway.registerInRemoteCatalog_joined setup devices config
  have hlen : (DeviceGateway.registerInRemoteCatalog setup devices config).agents.length =
      (config.Catalog.filter (fun cat => cat.setupSucceeds setup)).length * devices.length := by
    rw [← DeviceGateway.length_startedPairs, ← hp, List.length_map]
  have hch : (DeviceGateway.registerInRemoteCatalog setup devices config).regChannels.length =
      (config.Catalog.filter (fun cat => cat.setupSucceeds setup)).length * devices.length := by
    rw [hj.1, List.length_map, hlen]
  refine ⟨hp, hlen, hch, ?_⟩
  intro hall
  have hfilter : config.Catalog.filter (fun cat => cat.setupSucceeds setup) = config.Catalog :=
    List.filter_eq_self.2 hall
  rw [hch, hfilter]

/-- C1 (amended) at `configTwoCatalogs` with a setup that succeeds: two catalogs and one
device give two channels. -/
theorem registerInRemoteCatalog_one_agent_per_started_pair_witness :
    (∀ cat ∈ configTwoCatalogs.Catalog, cat.setupSucceeds succeedingSetup = true) ∧
      (DeviceGateway.registerInRemoteCatalog succeedingSetup [sampleDevice]
        configTwoCatalogs).regChannels.length =
          configTwoCatalogs.Catalog.length * [sampleDevice].length :=
  ⟨by decide,
    (registerInRemoteCatalog_one_agent_per_started_pair succeedingSetup [sampleDevice]
      configTwoCatalogs).2.2.2 (by decide)⟩

/-- C6: the number of channels returned by `registerInRemoteCatalog` equals the number of
agents it started and equals the count added to the wait group, whatever the obtainer setup
does; the channels returned are exactly the channels of the started agents, in order. -/
theorem registerInRemoteCatalog_channels_agents_waitgroup {O : Type}
    (setup : String → String → Except String O) (devices : List DeviceGateway.catalog.Device)
    (config : DeviceGateway.Config) :
    (DeviceGateway.registerInRemoteCatalog setup devices config).regChannels.length =
      (DeviceGateway.registerInRemoteCatalog setup devices config).agents.length ∧
    (DeviceGateway.registerInRemoteCatalog setup devices config).agents.length =
      (DeviceGateway.registerInRemoteCatalog setup devices config).wg ∧
    (DeviceGateway.registerInRemoteCatalog setup devices config).regChannels =
      (DeviceGateway.registerInRemoteCatalog setup devices config).agents.map
        (fun a => a.sigCh) := by
  have hj := DeviceGateway.registerInRemoteCatalog_joined setup devices config
  refine ⟨?_, hj.2.symm, hj.1⟩
  rw [hj.1, List.length_map]

/-! ## Theorems: the descriptor of the integration test -/

/-- C3 fails at the id `svc-1`: the ttl of `MockedService("svc-1")` is positive, but not every
protocol of its APIs is a member of `SupportedProtocols`. -/
theorem MockedService_protocol_not_supported :
    ¬ (0 < (MockedService "svc-1").TTL ∧
      ∀ api ∈ (MockedService "svc-1").APIs, catalog.SupportedProtocols api.Protocol = true) := by
  decide

/-- C3 (amended): for every id the descriptor built by `MockedService(id)` has ttl 30, which is
greater than 0, and exactly one API, whose protocol is `HTTPS`; `HTTPS` is not a member of
`SupportedProtocols`, so no API of the descriptor has a protocol in that set. -/
theorem MockedService_ttl_positive_protocol_HTTPS (id : String) :
    (MockedService id).TTL = 30 ∧ 0 < (MockedService id).TTL ∧
    (MockedService id).APIs.map (fun api => api.Protocol) = ["HTTPS"] ∧
    catalog.SupportedProtocols "HTTPS" = false ∧
    ∀ api ∈ (MockedService id).APIs, catalog.SupportedProtocols api.Protocol = false := by
  refine ⟨rfl, by simp [MockedService], rfl, by decide, ?_⟩
  intro api hapi
  have h : api.Protocol = "HTTPS" := by
    simp only [MockedService, List.mem_singleton] at hapi
    rw [hapi]
  rw [h]
  decide

/-! ## Theorems: registration and identity resolution -/

/-- The validation rule does not read the `id`. -/
theorem catalog.validate_withId (s : catalog.Service) (id : String) :
    catalog.validate { s with ID := id } = catalog.validate s := rfl

theorem catalog.Get_Upsert (now : Int) (st : catalog.Store) (d : catalog.Service)
    (hv : catalog.validate d = Except.ok ()) :
    ∃ st' stored created, catalog.Store.Upsert now st d = Except.ok (st', stored, created) ∧
      catalog.Store.Get st' d.ID = Except.ok stored ∧
      stored.ID = d.ID ∧ stored.Type_ = d.Type_ ∧ stored.Description = d.Description ∧
      stored.APIs = d.APIs ∧ stored.Doc = d.Doc ∧ stored.Meta = d.Meta ∧ stored.TTL = d.TTL := by
  unfold catalog.Store.Upsert
  rw [hv]
  cases hf : List.find? (fun s => decide (s.ID = d.ID)) st with
  | none =>
    refine ⟨_, _, _, rfl, ?_, rfl, rfl, rfl, rfl, rfl, rfl, rfl⟩
    simp [catalog.Store.Get]
  | some old =>
    refine ⟨_, _, _, rfl, ?_, rfl, rfl, rfl, rfl, rfl, rfl, rfl⟩
    simp [catalog.Store.Get]

/-- Removing the entries of another id does not change what is found under `id`. -/
theorem catalog.find?_filter_other (st : catalog.Store) (id other : String) (h : other ≠ id) :
    (st.filter (fun s => s.ID ≠ other)).find? (fun s => s.ID = id) =
      st.find? (fun s => s.ID = id) := by
  induction st with
  | nil => rfl
  | cons x xs ih =>
    rw [List.filter_cons]
    by_cases hx : x.ID = other
    · have hne : ¬ x.ID = id := fun e => h (hx.symm.trans e)
      have hc : ¬ (decide (x.ID ≠ other) = true) := by simp [hx]
      rw [if_neg hc, ih, List.find?_cons_of_neg _ (by simpa using hne)]
    · have hc : decide (x.ID ≠ other) = true := by simpa using hx
      rw [if_pos hc, List.find?_cons, List.find?_cons, ih]

/-- An `Upsert` of a descriptor with another id leaves `Get id` as it was. -/
theorem catalog.Get_Upsert_other (now : Int) (st st' : catalog.Store)
    (d stored : catalog.Service) (created : Bool) (id : String) (h : d.ID ≠ id)
    (hU : catalog.Store.Upsert now st d = Except.ok (st', stored, created)) :
    catalog.Store.Get st' id = catalog.Store.Get st id := by
  have key : ∀ x : catalog.Service, x.ID = d.ID →
      catalog.Store.Get (x :: st.filter (fun s => s.ID ≠ d.ID)) id = catalog.Store.Get st id := by
    intro x hx
    have hne : ¬ x.ID = id := fun e => h (hx.symm.trans e)
    unfold catalog.Store.Get
    rw [List.find?_cons_of_neg _ (by simpa using hne), catalog.find?_filter_other st id d.ID h]
  unfold catalog.Store.Upsert at hU
  cases hv : catalog.validate d with
  | error e => rw [hv] at hU; cases hU
  | ok u =>
    rw [hv] at hU
    cases hf : List.find? (fun s => decide (s.ID = d.ID)) st with
    | none =>
      rw [hf] at hU
      injection hU with hU
      injection hU with h1 _
      rw [← h1]
      exact key _ rfl
    | some old =>
      rw [hf] at hU
      injection hU with hU
      injection hU with h1 _
      rw [← h1]
      exact key _ rfl

/-- An accepted registration is an accepted `Upsert` of the payload under the resolved id. -/
theorem catalog.register_ok_Upsert (now : Int) (st st' : catalog.Store) (a : String)
    (payload : catalog.Service) (ev : catalog.LifecycleEvent)
    (h : catalog.register now st a payload = Except.ok (st', ev)) :
    ∃ stored created, catalog.Store.Upsert now st
      { payload with ID := catalog.resolveId a payload } = Except.ok (st', stored, created) := by
  unfold catalog.register at h
  dsimp only at h
  split at h
  · cases h
  · rename_i st2 stored created hU
    injection h with h
    injection h with h1 _
    exact ⟨stored, created, h1 ▸ hU⟩

/-- A registration under another id leaves `Get id` as it was. -/
theorem catalog.Get_registerNext_other (st : catalog.Store) (r : catalog.Request) (id : String)
    (h : catalog.resolveId r.addrId r.payload ≠ id) :
    catalog.Store.Get (catalog.registerNext st r) id = catalog.Store.Get st id := by
  unfold catalog.registerNext
  cases hR : catalog.register r.now st r.addrId r.payload with
  | error e => rfl
  | ok res =>
    obtain ⟨st', ev⟩ := res
    obtain ⟨stored, created, hU⟩ := catalog.register_ok_Upsert r.now st st' r.addrId r.payload ev hR
    exact catalog.Get_Upsert_other r.now st st' _ stored created id h hU

/-- Registrations under other ids leave `Get id` as it was. -/
theorem catalog.Get_registerAll_other (rs : List catalog.Request) (st : catalog.Store)
    (id : String) (h : ∀ r ∈ rs, catalog.resolveId r.addrId r.payload ≠ id) :
    catalog.Store.Get (catalog.registerAll st rs) id = catalog.Store.Get st id := by
  induction rs generalizing st with
  | nil => rfl
  | cons r rs ih =>
    have hr := h r (List.mem_cons_self r rs)
    have hrs : ∀ x ∈ rs, catalog.resolveId x.addrId x.payload ≠ id :=
      fun x hx => h x (List.mem_cons_of_mem r hx)
    show catalog.Store.Get (catalog.registerAll (catalog.registerNext st r) rs) id = _
    rw [ih (catalog.registerNext st r) hrs, catalog.Get_registerNext_other st r id hr]

/-- C4 fails for a request that validation rejects: a payload with an empty id and an API of
protocol `FTP`, registered at address `1234` in an empty registry, is not stored, and `Get` of
`1234` afterwards fails with the not-found condition. -/
theorem register_rejected_request_not_stored :
    catalog.register 100 [] "1234" (withProtocol "FTP" (MockedService "")) =
      Except.error (catalog.StoreError.ValidationError "unsupported API protocol") ∧
    catalog.Store.Get
        (catalog.registerNext []
          { now := 100, addrId := "1234", payload := withProtocol "FTP" (MockedService "") })
        "1234" =
      Except.error (catalog.StoreError.NotFoundError "1234") :=
  ⟨rfl, rfl⟩

/-- C4 (amended): a registration request with addressing id `a` whose payload passes the
validation of `Upsert` is accepted; the descriptor is stored under the payload id when that is
non-empty (and then `a` does not matter) and under `a` when the payload id is empty; `Get` of
the resolved id returns the descriptor with that id and the payload's fields, right after the
registration and after any later registrations that resolve to other ids. -/
theorem register_valid_request_then_Get (now : Int) (st : catalog.Store) (a : String)
    (payload : catalog.Service) (hv : catalog.validate payload = Except.ok ()) :
    ∃ st' ev stored, catalog.register now st a payload = Except.ok (st', ev) ∧
      (payload.ID ≠ "" → stored.ID = payload.ID ∧
        ∀ a', catalog.register now st a' payload = catalog.register now st a payload) ∧
      (payload.ID = "" → stored.ID = a) ∧
      stored.Type_ = payload.Type_ ∧ stored.Description = payload.Description ∧
      stored.APIs = payload.APIs ∧ stored.Doc = payload.Doc ∧ stored.Meta = payload.Meta ∧
      stored.TTL = payload.TTL ∧
      catalog.Store.Get st' stored.ID = Except.ok stored ∧
      ∀ later : List catalog.Request,
        (∀ r ∈ later, catalog.resolveId r.addrId r.payload ≠ stored.ID) →
        catalog.Store.Get (catalog.registerAll st' later) stored.ID = Except.ok stored := by
  obtain ⟨st', stored, created, hU, hG, hid, h1, h2, h3, h4, h5, h6⟩ :=
    catalog.Get_Upsert now st { payload with ID := catalog.resolveId a payload }
      ((catalog.validate_withId payload _).trans hv)
  have hid' : stored.ID = catalog.resolveId a payload := hid
  have hG' : catalog.Store.Get st' stored.ID = Except.ok stored := by
    rw [hid']; exact hG
  refine ⟨st', if created then catalog.LifecycleEvent.Created stored
    else catalog.LifecycleEvent.Updated stored, stored, ?_, ?_, ?_, h1, h2, h3, h4, h5, h6,
    hG', ?_⟩
  · simp only [catalog.register, hU]
  · intro hne
    have hr : ∀ x, catalog.resolveId x payload = payload.ID := by
      intro x; simp [catalog.resolveId, hne]
    refine ⟨hid'.trans (hr a), ?_⟩
    intro a'
    simp only [catalog.register, hr]
  · intro he
    have hr : catalog.resolveId a payload = a := by simp [catalog.resolveId, he]
    exact hid'.trans hr
  · intro later hlater
    rw [catalog.Get_registerAll_other later st' stored.ID hlater]
    exact hG'

/-- C4 (amended) at the two requests of the integration test, with the API protocol `HTTP`:
the payload with id `svc-1` published at address `someid` is stored under `svc-1`; the payload
with an empty id published at address `1234` is stored under `1234`, and `Get` of `1234` still
returns it after a later registration of `svc-1`. -/
theorem register_valid_request_then_Get_witness :
    (catalog.validate (withProtocol "HTTP" (MockedService "svc-1")) = Except.ok () ∧
      ∃ st' ev stored,
        catalog.register 100 [] "someid" (withProtocol "HTTP" (MockedService "svc-1")) =
          Except.ok (st', ev) ∧
        stored.ID = "svc-1" ∧ catalog.Store.Get st' "svc-1" = Except.ok stored) ∧
    (catalog.validate (withProtocol "HTTP" (MockedService "")) = Except.ok () ∧
      ∃ st' ev stored,
        catalog.register 100 [] "1234" (withProtocol "HTTP" (MockedService "")) =
          Except.ok (st', ev) ∧
        stored.ID = "1234" ∧ catalog.Store.Get st' "1234" = Except.ok stored ∧
        catalog.Store.Get
            (catalog.registerAll st'
              [{ now := 102, addrId := "someid",
                 payload := withProtocol "HTTP" (MockedService "svc-1") }])
            "1234" = Except.ok stored) := by
  refine ⟨⟨rfl, ?_⟩, ⟨rfl, ?_⟩⟩
  · obtain ⟨st', ev, stored, hreg, hp, _, _, _, _, _, _, _, hget, _⟩ :=
      register_valid_request_then_Get 100 [] "someid"
        (withProtocol "HTTP" (MockedService "svc-1")) rfl
    have hid : stored.ID = "svc-1" := (hp (by decide)).1
    exact ⟨st', ev, stored, hreg, hid, hid ▸ hget⟩
  · obtain ⟨st', ev, stored, hreg, _, he, _, _, _, _, _, _, hget, hlater⟩ :=
      register_valid_request_then_Get 100 [] "1234"
        (withProtocol "HTTP" (MockedService "")) rfl
    have hid : stored.ID = "1234" := he rfl
    refine ⟨st', ev, stored, hreg, hid, hid ▸ hget, ?_⟩
    have h := hlater
      [{ now := 102, addrId := "someid", payload := withProtocol "HTTP" (MockedService "svc-1") }]
      (by
        intro r hr
        rw [List.mem_singleton] at hr
        rw [hr, hid]
        decide)
    exact hid ▸ h

end ServiceCatalog
